import Mathlib

/-
  Verification development for the file-share-cli repository.

  The repository source under src/ is a single file, src/cli.ts, which
  implements the interactive upload and download flows of a passcode-gated
  file sharing tool. The collaborator modules it imports (bcrypt.ts,
  dbService.ts, utils.ts, googleDriveService.ts) are not present under src/,
  so their behaviour is modelled from the specification where a claim
  depends on it; every such definition carries a doc comment starting with
  "Modelled from the spec:".

  The two flows, handleFileUpload and handleFileDownload, are embedded as
  pure functions that return the ordered list of observable CLI events
  (spinner messages, notes, console errors, collaborator calls) together
  with a caller-visible outcome, and, for upload, the resulting database
  state. Fallible collaborators are passed in as explicit functions so that
  every failure scenario of the TypeScript code is reachable in the model.
-/

namespace FileShareCli

/-- A persisted secure file record, as created by
dbService.createSecureFile(hashedPassCode, sharedKey, fileId) in cli.ts. -/
structure SecureFileRecord where
  hashedPassCode : String
  sharedKey : String
  fileId : String
deriving DecidableEq, Repr

/-- Error taxonomy of the passcode hasher, from spec section 4.2. -/
inductive BcryptError where
  | invalidInput
  | malformedDigest
deriving DecidableEq, Repr

/-- Error taxonomy of the record store, from spec section 4.3. -/
inductive DbError where
  | duplicateKey
deriving DecidableEq, Repr

/-- Header that marks a well-formed bcrypt digest in the model. -/
def digestHeader : String := "$2b$10$"

/-- Modelled from the spec: src/bcrypt.ts is absent from src/. The salted
one-way digest is abstracted as a deterministic tagged encoding of the
passcode; the claims settled here do not depend on salt randomisation. -/
def bcryptDigest (passcode : String) : String := digestHeader ++ passcode

/-- A digest is well formed when it carries the expected header. The check
is over the character lists so that it evaluates by kernel reduction. -/
def isWellFormedDigest (hashed : String) : Bool :=
  digestHeader.data.isPrefixOf hashed.data

/-- Modelled from the spec: src/bcrypt.ts is absent from src/. Spec section
4.2: hash fails with InvalidInput if the passcode is empty, otherwise
produces a digest. -/
def hashPasscode (passcode : String) : Except BcryptError String :=
  if passcode = "" then Except.error BcryptError.invalidInput
  else Except.ok (bcryptDigest passcode)

/-- Modelled from the spec: src/bcrypt.ts is absent from src/. Spec section
4.2: verify recomputes and compares; mismatch is a normal boolean false,
never an error; only a malformed stored digest is an error condition. -/
def comparePasscode (passcode hashed : String) : Except BcryptError Bool :=
  if isWellFormedDigest hashed then
    Except.ok (decide (hashed = bcryptDigest passcode))
  else Except.error BcryptError.malformedDigest

/-- Modelled from the spec: src/dbService.ts is absent from src/. Spec
section 4.3: get is a pure point lookup by shared key, returning NotFound
(here none) on a miss. -/
def getSecureFile (db : List SecureFileRecord) (key : String) : Option SecureFileRecord :=
  db.find? (fun r => r.sharedKey == key)

/-- Modelled from the spec: src/dbService.ts is absent from src/. Spec
section 4.3: put fails with DuplicateKey when the shared key already
exists, otherwise atomically inserts the full record. -/
def createSecureFile (db : List SecureFileRecord) (hashedPassCode sharedKey fileId : String) :
    Except DbError (List SecureFileRecord) :=
  if (getSecureFile db sharedKey).isSome then Except.error DbError.duplicateKey
  else Except.ok (db ++ [⟨hashedPassCode, sharedKey, fileId⟩])

/-- The validate callback of the shared-key text prompt in
handleFileDownload (cli.ts lines 79 to 84): rejects empty input with a
message, accepts anything else. -/
def sharedKeyPromptValidate (value : String) : Option String :=
  if value = "" then some "Must provide the shared key" else none

/-- A clack text prompt re-asks until the validate callback accepts: the
first attempted input that validates is returned. -/
def promptText (validate : String → Option String) : List String → Option String
  | [] => none
  | v :: rest =>
    match validate v with
    | none => some v
    | some _ => promptText validate rest

/-- askPassword (cli.ts lines 24 to 32) forwards the prompt response with
no validate callback: whatever the user typed, including the empty string,
is returned unchanged. -/
def askPassword (response : String) : String := response

/-- Node path.join of two segments, as used in cli.ts lines 117 to 118. -/
def pathJoin (a b : String) : String := a ++ "/" ++ b

/-- Observable events of a CLI run: spinner messages, notes, console
errors, and calls into the collaborators, in program order. -/
inductive CliEvent where
  | spinnerStart (msg : String)
  | spinnerStop (msg : String)
  | noteMsg (msg : String) (kind : String)
  | consoleError (msg : String)
  | callUploadFile (filePath : String)
  | callCreateSecureFile (hashedPassCode sharedKey fileId : String)
  | callGetSecureFile (key : String)
  | callComparePasscode (entered hashed : String)
  | callGetFileMetadata (fileId : String)
  | callDownloadFile (fileId destinationPath : String)
deriving DecidableEq, Repr

/-- Caller-visible outcome of handleFileUpload. hashRejected models the
unhandled rejection when bcrypt.hashPasscode throws before the try block
(cli.ts line 54); uploadFailed is the single catch branch (lines 72 to 75);
uploaded is the success path. -/
inductive UploadOutcome where
  | hashRejected (e : BcryptError)
  | uploadFailed
  | uploaded (sharedKey : String)
deriving DecidableEq, Repr

/-- Caller-visible outcome of handleFileDownload. wrongSharedKey is the
lookup-miss early return (cli.ts lines 93 to 96), wrongPasscode the
mismatch early return (lines 103 to 106), compareRejected the unhandled
rejection when comparePasscode throws, downloadFailed the catch branch
(lines 122 to 125), downloaded the success path with its destination. -/
inductive DownloadOutcome where
  | wrongSharedKey
  | wrongPasscode
  | compareRejected (e : BcryptError)
  | downloadFailed
  | downloaded (destinationPath : String)
deriving DecidableEq, Repr

/-- Result of an upload run: the observable event trace, the outcome, and
the database state after the run. -/
structure UploadResult where
  events : List CliEvent
  outcome : UploadOutcome
  db : List SecureFileRecord
deriving DecidableEq, Repr

/-- Result of a download run: the observable event trace and the outcome. -/
structure DownloadResult where
  events : List CliEvent
  outcome : DownloadOutcome
deriving DecidableEq, Repr

/-- Embedding of getFilePathAndPassCode followed by handleFileUpload
(cli.ts lines 34 to 76). Inputs are the database state, the prompted file
path and passcode, the generated shared key (generateSharedKey lives in the
absent utils.ts, so the key is a parameter), and the remote upload
collaborator, where none models a throw from
googleDriveService.uploadFile. The shared key is revealed by the spinner
stop inside getFilePathAndPassCode before any upload work starts; hashing
happens before the try block, so a hash error rejects the whole call;
uploadFile and createSecureFile run inside one try whose catch stops the
spinner with a single generic failure message. -/
def handleFileUpload (db : List SecureFileRecord) (filePath passcode sharedKey : String)
    (uploadFile : String → Option String) : UploadResult :=
  let ev0 := [CliEvent.spinnerStart "Generating a shared key...",
              CliEvent.spinnerStop ("Shared key: " ++ sharedKey)]
  match hashPasscode (askPassword passcode) with
  | Except.error e => ⟨ev0, UploadOutcome.hashRejected e, db⟩
  | Except.ok hashedPassCode =>
    let ev1 := ev0 ++ [CliEvent.spinnerStart "Processing file...",
                       CliEvent.callUploadFile filePath]
    match uploadFile filePath with
    | none =>
        ⟨ev1 ++ [CliEvent.spinnerStop "File upload failed!",
                 CliEvent.consoleError "Error uploading file:"],
         UploadOutcome.uploadFailed, db⟩
    | some fileId =>
        let ev2 := ev1 ++ [CliEvent.callCreateSecureFile hashedPassCode sharedKey fileId]
        match createSecureFile db hashedPassCode sharedKey fileId with
        | Except.error _ =>
            ⟨ev2 ++ [CliEvent.spinnerStop "File upload failed!",
                     CliEvent.consoleError "Error uploading file:"],
             UploadOutcome.uploadFailed, db⟩
        | Except.ok db2 =>
            ⟨ev2 ++ [CliEvent.spinnerStop "File successfully uploaded!",
                     CliEvent.noteMsg
                       "Share the passcode and shared key to the user who will download the file"
                       "info"],
             UploadOutcome.uploaded sharedKey, db2⟩

/-- Embedding of handleFileDownload (cli.ts lines 78 to 126), taking the
validated shared key and the unvalidated passcode as inputs together with
the metadata collaborator (none models a throw from getFileMetadata; an
empty returned name also takes the failure path because of the falsy check
on line 115), a flag for whether downloadFile succeeds, and the home
directory. The lookup miss and the passcode mismatch are two distinct
early returns with different spinner messages; storage failures after the
credential check land in the catch branch with their own messages. -/
def handleFileDownload (db : List SecureFileRecord) (sharedKey enteredPasscode : String)
    (getFileMetadata : String → Option String) (downloadOk : Bool)
    (homedir : String) : DownloadResult :=
  let ev0 := [CliEvent.spinnerStart "Varifying passcode...",
              CliEvent.callGetSecureFile sharedKey]
  match getSecureFile db sharedKey with
  | none => ⟨ev0 ++ [CliEvent.spinnerStop "Wrong shared key!"], DownloadOutcome.wrongSharedKey⟩
  | some file =>
    let ev1 := ev0 ++ [CliEvent.callComparePasscode (askPassword enteredPasscode) file.hashedPassCode]
    match comparePasscode (askPassword enteredPasscode) file.hashedPassCode with
    | Except.error e => ⟨ev1, DownloadOutcome.compareRejected e⟩
    | Except.ok false =>
        ⟨ev1 ++ [CliEvent.spinnerStop "Wrong passcode!"], DownloadOutcome.wrongPasscode⟩
    | Except.ok true =>
        let ev2 := ev1 ++ [CliEvent.spinnerStop "Success!",
                           CliEvent.spinnerStart "Downloading...",
                           CliEvent.callGetFileMetadata file.fileId]
        match getFileMetadata file.fileId with
        | none =>
            ⟨ev2 ++ [CliEvent.consoleError "Error downloading file:",
                     CliEvent.noteMsg "Failed to download file" "error"],
             DownloadOutcome.downloadFailed⟩
        | some fileName =>
            if fileName = "" then
              ⟨ev2 ++ [CliEvent.consoleError "Error downloading file:",
                       CliEvent.noteMsg "Failed to download file" "error"],
               DownloadOutcome.downloadFailed⟩
            else
              let destinationPath := pathJoin (pathJoin homedir "Downloads") fileName
              let ev3 := ev2 ++ [CliEvent.callDownloadFile file.fileId destinationPath]
              if downloadOk then
                ⟨ev3 ++ [CliEvent.spinnerStop ("File downloaded to: " ++ destinationPath)],
                 DownloadOutcome.downloaded destinationPath⟩
              else
                ⟨ev3 ++ [CliEvent.consoleError "Error downloading file:",
                         CliEvent.noteMsg "Failed to download file" "error"],
                 DownloadOutcome.downloadFailed⟩

/-- On a lookup miss the download flow stops with the wrong-shared-key
message and returns, its whole run being these three events. -/
lemma handleFileDownload_miss (db : List SecureFileRecord) (k p : String)
    (meta : String → Option String) (ok : Bool) (home : String)
    (h : getSecureFile db k = none) :
    handleFileDownload db k p meta ok home =
      ⟨[CliEvent.spinnerStart "Varifying passcode...",
        CliEvent.callGetSecureFile k,
        CliEvent.spinnerStop "Wrong shared key!"],
       DownloadOutcome.wrongSharedKey⟩ := by
  unfold handleFileDownload
  rw [h]
  rfl

/-- On a passcode mismatch against a found record the download flow stops
with the wrong-passcode message and returns. -/
lemma handleFileDownload_mismatch (db : List SecureFileRecord) (k p : String)
    (meta : String → Option String) (ok : Bool) (home : String)
    (file : SecureFileRecord)
    (h : getSecureFile db k = some file)
    (hc : comparePasscode p file.hashedPassCode = Except.ok false) :
    handleFileDownload db k p meta ok home =
      ⟨[CliEvent.spinnerStart "Varifying passcode...",
        CliEvent.callGetSecureFile k,
        CliEvent.callComparePasscode p file.hashedPassCode,
        CliEvent.spinnerStop "Wrong passcode!"],
       DownloadOutcome.wrongPasscode⟩ := by
  unfold handleFileDownload
  rw [h]
  simp only [askPassword, hc]
  rfl

/-- After a successful credential check the outcome of the download flow is
either downloadFailed or downloaded, never a credential failure. -/
lemma handleFileDownload_after_success (db : List SecureFileRecord) (k p : String)
    (meta : String → Option String) (ok : Bool) (home : String)
    (file : SecureFileRecord)
    (h : getSecureFile db k = some file)
    (hc : comparePasscode p file.hashedPassCode = Except.ok true) :
    (handleFileDownload db k p meta ok home).outcome = DownloadOutcome.downloadFailed ∨
    ∃ fileName, meta file.fileId = some fileName ∧ fileName ≠ "" ∧
      (handleFileDownload db k p meta ok home).outcome =
        DownloadOutcome.downloaded (pathJoin (pathJoin home "Downloads") fileName) := by
  unfold handleFileDownload
  rw [h]
  simp only [askPassword, hc]
  cases hm : meta file.fileId with
  | none => left; rfl
  | some fileName =>
    by_cases hn : fileName = ""
    · left; simp [hn]
    · cases hok : ok
      · left; simp [hn]
      · right; exact ⟨fileName, rfl, hn, by simp [hn]⟩

/-- With an empty passcode the upload flow is rejected by the hash step
right after the key reveal, before any upload work, leaving the database
unchanged. -/
lemma handleFileUpload_emptyPasscode (db : List SecureFileRecord) (fp k : String)
    (upl : String → Option String) :
    handleFileUpload db fp "" k upl =
      ⟨[CliEvent.spinnerStart "Generating a shared key...",
        CliEvent.spinnerStop ("Shared key: " ++ k)],
       UploadOutcome.hashRejected BcryptError.invalidInput, db⟩ := by
  unfold handleFileUpload
  rfl

/-- When the remote upload throws, the upload flow lands in the catch
branch with the generic failure message and the database is unchanged. -/
lemma handleFileUpload_uploadFail (db : List SecureFileRecord) (fp p k : String)
    (upl : String → Option String)
    (hp : p ≠ "") (hu : upl fp = none) :
    handleFileUpload db fp p k upl =
      ⟨[CliEvent.spinnerStart "Generating a shared key...",
        CliEvent.spinnerStop ("Shared key: " ++ k),
        CliEvent.spinnerStart "Processing file...",
        CliEvent.callUploadFile fp,
        CliEvent.spinnerStop "File upload failed!",
        CliEvent.consoleError "Error uploading file:"],
       UploadOutcome.uploadFailed, db⟩ := by
  unfold handleFileUpload
  simp only [askPassword, hashPasscode, if_neg hp, hu]
  rfl

/-- When the remote upload succeeds but the record write throws, the
upload flow lands in the same catch branch with the same generic failure
message, and the database is unchanged. -/
lemma handleFileUpload_putFail (db : List SecureFileRecord) (fp p k fid : String)
    (upl : String → Option String)
    (hp : p ≠ "") (hu : upl fp = some fid)
    (hdup : (getSecureFile db k).isSome = true) :
    handleFileUpload db fp p k upl =
      ⟨[CliEvent.spinnerStart "Generating a shared key...",
        CliEvent.spinnerStop ("Shared key: " ++ k),
        CliEvent.spinnerStart "Processing file...",
        CliEvent.callUploadFile fp,
        CliEvent.callCreateSecureFile (bcryptDigest p) k fid,
        CliEvent.spinnerStop "File upload failed!",
        CliEvent.consoleError "Error uploading file:"],
       UploadOutcome.uploadFailed, db⟩ := by
  unfold handleFileUpload
  simp only [askPassword, hashPasscode, if_neg hp, hu, createSecureFile, hdup, if_pos]
  rfl

/-- On the happy path the upload flow appends exactly one fully formed
record to the store and reports success after the key was already
revealed. -/
lemma handleFileUpload_success (db : List SecureFileRecord) (fp p k fid : String)
    (upl : String → Option String)
    (hp : p ≠ "") (hu : upl fp = some fid)
    (hfresh : (getSecureFile db k).isSome = false) :
    handleFileUpload db fp p k upl =
      ⟨[CliEvent.spinnerStart "Generating a shared key...",
        CliEvent.spinnerStop ("Shared key: " ++ k),
        CliEvent.spinnerStart "Processing file...",
        CliEvent.callUploadFile fp,
        CliEvent.callCreateSecureFile (bcryptDigest p) k fid,
        CliEvent.spinnerStop "File successfully uploaded!",
        CliEvent.noteMsg
          "Share the passcode and shared key to the user who will download the file"
          "info"],
       UploadOutcome.uploaded k, db ++ [⟨bcryptDigest p, k, fid⟩]⟩ := by
  unfold handleFileUpload
  simp only [askPassword, hashPasscode, if_neg hp, hu, createSecureFile, hfresh]
  rfl

/- Claims -/

/-- C1, as stated by the spec, is false on the code: downloading with an
unknown shared key and downloading with a known key but a wrong passcode
produce different caller-visible outcomes. Concretely, with one stored
record for key K and passcode xyz123, the unknown-key run stops with the
wrong-shared-key outcome while the wrong-passcode run stops with the
distinct wrong-passcode outcome. -/
theorem c1_download_failures_not_uniform_counterexample :
    (handleFileDownload [⟨bcryptDigest "xyz123", "K", "fid1"⟩] "WRONGKEY" "xyz123"
        (fun _ => some "report.pdf") true "/home/u").outcome ≠
    (handleFileDownload [⟨bcryptDigest "xyz123", "K", "fid1"⟩] "K" "wrongpass"
        (fun _ => some "report.pdf") true "/home/u").outcome := by
  decide

/-- C1 (amended): a shared-key lookup miss and a passcode verification
failure both abort the download before any storage access, but with
distinguishable caller-visible outcomes: the miss stops with the
wrong-shared-key message and the mismatch stops with the wrong-passcode
message, so the caller learns which factor failed. -/
theorem c1_download_failures_distinguishable
    (db : List SecureFileRecord) (k1 k2 p1 p2 : String)
    (file : SecureFileRecord)
    (meta : String → Option String) (ok : Bool) (home : String)
    (h1 : getSecureFile db k1 = none)
    (h2 : getSecureFile db k2 = some file)
    (h3 : comparePasscode p2 file.hashedPassCode = Except.ok false) :
    (handleFileDownload db k1 p1 meta ok home).outcome = DownloadOutcome.wrongSharedKey ∧
    (handleFileDownload db k2 p2 meta ok home).outcome = DownloadOutcome.wrongPasscode ∧
    (handleFileDownload db k1 p1 meta ok home).outcome ≠
      (handleFileDownload db k2 p2 meta ok home).outcome := by
  rw [handleFileDownload_miss db k1 p1 meta ok home h1,
      handleFileDownload_mismatch db k2 p2 meta ok home file h2 h3]
  refine ⟨rfl, rfl, ?_⟩
  simp

/-- C1 witness: the amended statement instantiated at the concrete store
holding one record for key K. -/
theorem c1_download_failures_distinguishable_witness :
    (handleFileDownload [⟨bcryptDigest "xyz123", "K", "fid1"⟩] "WRONGKEY" "xyz123"
        (fun _ => some "report.pdf") true "/home/u").outcome = DownloadOutcome.wrongSharedKey ∧
    (handleFileDownload [⟨bcryptDigest "xyz123", "K", "fid1"⟩] "K" "wrongpass"
        (fun _ => some "report.pdf") true "/home/u").outcome = DownloadOutcome.wrongPasscode ∧
    (handleFileDownload [⟨bcryptDigest "xyz123", "K", "fid1"⟩] "WRONGKEY" "xyz123"
        (fun _ => some "report.pdf") true "/home/u").outcome ≠
      (handleFileDownload [⟨bcryptDigest "xyz123", "K", "fid1"⟩] "K" "wrongpass"
        (fun _ => some "report.pdf") true "/home/u").outcome :=
  c1_download_failures_distinguishable
    [⟨bcryptDigest "xyz123", "K", "fid1"⟩] "WRONGKEY" "K" "xyz123" "wrongpass"
    ⟨bcryptDigest "xyz123", "K", "fid1"⟩
    (fun _ => some "report.pdf") true "/home/u"
    rfl rfl rfl

/-- C2: if the remote upload fails after the key was generated and the
passcode hashed, the record write is never reached, the database is
unchanged, and a subsequent lookup of the freshly generated key still
returns NotFound. -/
theorem c2_no_record_on_upload_failure
    (db : List SecureFileRecord) (fp p k : String)
    (upl : String → Option String)
    (hp : p ≠ "") (hu : upl fp = none)
    (hfresh : getSecureFile db k = none) :
    (handleFileUpload db fp p k upl).db = db ∧
    (∀ h key fid, CliEvent.callCreateSecureFile h key fid ∉ (handleFileUpload db fp p k upl).events) ∧
    getSecureFile (handleFileUpload db fp p k upl).db k = none := by
  rw [handleFileUpload_uploadFail db fp p k upl hp hu]
  refine ⟨rfl, ?_, hfresh⟩
  intro h key fid
  simp

/-- C2 witness: a concrete failing upload against an empty store. -/
theorem c2_no_record_on_upload_failure_witness :
    (handleFileUpload [] "/tmp/report.pdf" "xyz123" "K" (fun _ => none)).db = [] ∧
    (∀ h key fid, CliEvent.callCreateSecureFile h key fid ∉
      (handleFileUpload [] "/tmp/report.pdf" "xyz123" "K" (fun _ => none)).events) ∧
    getSecureFile (handleFileUpload [] "/tmp/report.pdf" "xyz123" "K" (fun _ => none)).db "K" = none :=
  c2_no_record_on_upload_failure [] "/tmp/report.pdf" "xyz123" "K" (fun _ => none)
    (by decide) rfl (by decide)

/-- C3, as stated by the spec, is false on the code: a record-write
failure after a successful remote upload is reported with exactly the same
caller-visible outcome as a remote-upload failure, both landing in the one
catch branch; no distinct orphaned-remote-file condition exists.
Concretely, an upload whose record write hits a duplicate key and an
upload whose remote transfer throws end in the same uploadFailed outcome. -/
theorem c3_orphan_not_distinct_counterexample :
    (handleFileUpload [⟨bcryptDigest "old", "K", "fid0"⟩] "/tmp/report.pdf" "xyz123" "K"
        (fun _ => some "fid1")).outcome =
      (handleFileUpload [] "/tmp/report.pdf" "xyz123" "K" (fun _ => none)).outcome ∧
    (handleFileUpload [⟨bcryptDigest "old", "K", "fid0"⟩] "/tmp/report.pdf" "xyz123" "K"
        (fun _ => some "fid1")).outcome = UploadOutcome.uploadFailed := by
  constructor <;> decide

/-- C3 (amended): when the remote upload succeeds but the record write
fails, the flow reports the same generic upload-failure outcome, with the
same failure spinner message and console error events, as when the remote
upload itself fails; the partial failure is not surfaced as a distinct
orphaned-remote-file condition. -/
theorem c3_record_write_failure_reported_as_generic_upload_failure
    (db : List SecureFileRecord) (fp p k fid : String)
    (hp : p ≠ "")
    (hdup : (getSecureFile db k).isSome = true) :
    (handleFileUpload db fp p k (fun _ => some fid)).outcome = UploadOutcome.uploadFailed ∧
    (handleFileUpload db fp p k (fun _ => none)).outcome = UploadOutcome.uploadFailed ∧
    (handleFileUpload db fp p k (fun _ => some fid)).events.drop 5 =
      (handleFileUpload db fp p k (fun _ => none)).events.drop 4 := by
  rw [handleFileUpload_putFail db fp p k fid (fun _ => some fid) hp rfl hdup,
      handleFileUpload_uploadFail db fp p k (fun _ => none) hp rfl]
  exact ⟨rfl, rfl, rfl⟩

/-- C3 witness: the amended statement instantiated at a store already
holding key K, so that the record write fails while the remote upload
succeeded. -/
theorem c3_record_write_failure_reported_as_generic_upload_failure_witness :
    (handleFileUpload [⟨bcryptDigest "old", "K", "fid0"⟩] "/tmp/report.pdf" "xyz123" "K"
        (fun _ => some "fid1")).outcome = UploadOutcome.uploadFailed ∧
    (handleFileUpload [⟨bcryptDigest "old", "K", "fid0"⟩] "/tmp/report.pdf" "xyz123" "K"
        (fun _ => none)).outcome = UploadOutcome.uploadFailed ∧
    (handleFileUpload [⟨bcryptDigest "old", "K", "fid0"⟩] "/tmp/report.pdf" "xyz123" "K"
        (fun _ => some "fid1")).events.drop 5 =
      (handleFileUpload [⟨bcryptDigest "old", "K", "fid0"⟩] "/tmp/report.pdf" "xyz123" "K"
        (fun _ => none)).events.drop 4 :=
  c3_record_write_failure_reported_as_generic_upload_failure
    [⟨bcryptDigest "old", "K", "fid0"⟩] "/tmp/report.pdf" "xyz123" "K" "fid1"
    (by decide) (by decide)

/-- C4, as stated by the spec, is false on the code: the destination path
is not an input chosen by the caller. In a concrete successful run the
file lands at the system-fixed path homedir/Downloads/fileName, and a run
with identical caller inputs can never produce a caller-chosen destination
such as /tmp/chosen/report.pdf. -/
theorem c4_destination_not_caller_specified_counterexample :
    (handleFileDownload [⟨bcryptDigest "xyz123", "K", "fid1"⟩] "K" "xyz123"
        (fun _ => some "report.pdf") true "/home/u").outcome =
      DownloadOutcome.downloaded (pathJoin (pathJoin "/home/u" "Downloads") "report.pdf") ∧
    (handleFileDownload [⟨bcryptDigest "xyz123", "K", "fid1"⟩] "K" "xyz123"
        (fun _ => some "report.pdf") true "/home/u").outcome ≠
      DownloadOutcome.downloaded "/tmp/chosen/report.pdf" := by
  refine ⟨rfl, ?_⟩
  decide

/-- C4 (amended): after credential verification succeeds the file content
is written to a system-fixed destination, the Downloads folder under the
OS home directory joined with the file name from remote metadata; every
destination the flow ever reports equals that fixed path, and no caller
input selects it. -/
theorem c4_download_destination_system_fixed
    (db : List SecureFileRecord) (k p : String) (meta : String → Option String)
    (home : String) (file : SecureFileRecord) (fileName : String)
    (h1 : getSecureFile db k = some file)
    (h2 : comparePasscode p file.hashedPassCode = Except.ok true)
    (h3 : meta file.fileId = some fileName)
    (h4 : fileName ≠ "") :
    (handleFileDownload db k p meta true home).outcome =
      DownloadOutcome.downloaded (pathJoin (pathJoin home "Downloads") fileName) ∧
    ∀ (ok : Bool) (d : String),
      (handleFileDownload db k p meta ok home).outcome = DownloadOutcome.downloaded d →
        d = pathJoin (pathJoin home "Downloads") fileName := by
  constructor
  · unfold handleFileDownload
    rw [h1]
    simp only [askPassword, h2, h3]
    rw [if_neg h4]
    rfl
  · intro ok d hd
    unfold handleFileDownload at hd
    rw [h1] at hd
    simp only [askPassword, h2, h3] at hd
    rw [if_neg h4] at hd
    cases ok with
    | false => simp at hd
    | true =>
      simp at hd
      first
      | exact hd
      | exact hd.symm

/-- C4 witness: the amended statement instantiated at a concrete store,
matching passcode and metadata name report.pdf. -/
theorem c4_download_destination_system_fixed_witness :
    (handleFileDownload [⟨bcryptDigest "xyz123", "K", "fid1"⟩] "K" "xyz123"
        (fun _ => some "report.pdf") true "/home/u").outcome =
      DownloadOutcome.downloaded (pathJoin (pathJoin "/home/u" "Downloads") "report.pdf") ∧
    ∀ (ok : Bool) (d : String),
      (handleFileDownload [⟨bcryptDigest "xyz123", "K", "fid1"⟩] "K" "xyz123"
          (fun _ => some "report.pdf") ok "/home/u").outcome = DownloadOutcome.downloaded d →
        d = pathJoin (pathJoin "/home/u" "Downloads") "report.pdf" :=
  c4_download_destination_system_fixed
    [⟨bcryptDigest "xyz123", "K", "fid1"⟩] "K" "xyz123" (fun _ => some "report.pdf")
    "/home/u" ⟨bcryptDigest "xyz123", "K", "fid1"⟩ "report.pdf"
    rfl rfl rfl (by decide)

/-- C5: the hash step errors exactly on the empty passcode, the error is
InvalidInput, and an upload invoked with an empty passcode is rejected at
the hash step instead of producing a digest or touching the store. -/
theorem c5_hash_rejects_exactly_empty_passcode
    (p : String) (db : List SecureFileRecord) (fp k : String)
    (upl : String → Option String) :
    ((∃ e, hashPasscode p = Except.error e) ↔ p = "") ∧
    hashPasscode "" = Except.error BcryptError.invalidInput ∧
    (p = "" → (handleFileUpload db fp p k upl).outcome =
        UploadOutcome.hashRejected BcryptError.invalidInput) := by
  refine ⟨⟨?_, ?_⟩, rfl, ?_⟩
  · rintro ⟨e, he⟩
    by_contra hp
    simp [hashPasscode, hp] at he
  · intro hp
    subst hp
    exact ⟨BcryptError.invalidInput, rfl⟩
  · intro hp
    subst hp
    rw [handleFileUpload_emptyPasscode]

/-- C5 witness: an empty-passcode upload against an empty store is
rejected with InvalidInput. -/
theorem c5_hash_rejects_exactly_empty_passcode_witness :
    (handleFileUpload [] "/tmp/report.pdf" "" "K" (fun _ => none)).outcome =
      UploadOutcome.hashRejected BcryptError.invalidInput :=
  (c5_hash_rejects_exactly_empty_passcode "" [] "/tmp/report.pdf" "K" (fun _ => none)).2.2 rfl

/-- C6: verification of any passcode against any well-formed stored digest
that does not match returns the boolean false rather than an error, and
the download flow turns that false into the normal wrong-passcode early
return, not an exceptional outcome. -/
theorem c6_verify_mismatch_is_false_not_error
    (p hashed : String)
    (h1 : isWellFormedDigest hashed = true)
    (h2 : hashed ≠ bcryptDigest p) :
    comparePasscode p hashed = Except.ok false ∧
    ∀ (db : List SecureFileRecord) (k : String) (meta : String → Option String)
      (ok : Bool) (home : String) (file : SecureFileRecord),
      getSecureFile db k = some file → file.hashedPassCode = hashed →
        (handleFileDownload db k p meta ok home).outcome = DownloadOutcome.wrongPasscode := by
  have hcmp : comparePasscode p hashed = Except.ok false := by
    unfold comparePasscode
    rw [if_pos h1]
    simp [h2]
  refine ⟨hcmp, ?_⟩
  intro db k meta ok home file hg hh
  rw [handleFileDownload_mismatch db k p meta ok home file hg (hh.symm ▸ hcmp)]

/-- C6 witness: the wrong passcode against the stored digest of xyz123
yields Except.ok false and the wrong-passcode outcome. -/
theorem c6_verify_mismatch_is_false_not_error_witness :
    comparePasscode "wrongpass" (bcryptDigest "xyz123") = Except.ok false ∧
    (handleFileDownload [⟨bcryptDigest "xyz123", "K", "fid1"⟩] "K" "wrongpass"
        (fun _ => some "report.pdf") true "/home/u").outcome = DownloadOutcome.wrongPasscode :=
  ⟨(c6_verify_mismatch_is_false_not_error "wrongpass" (bcryptDigest "xyz123")
      rfl (by decide)).1,
   (c6_verify_mismatch_is_false_not_error "wrongpass" (bcryptDigest "xyz123")
      rfl (by decide)).2
     [⟨bcryptDigest "xyz123", "K", "fid1"⟩] "K" (fun _ => some "report.pdf") true "/home/u"
     ⟨bcryptDigest "xyz123", "K", "fid1"⟩ rfl rfl⟩

/-- C7: once the lookup found a record and passcode verification returned
true, the run can only end in the storage-failure outcome or the
downloaded outcome; it never produces either credential-failure outcome. -/
theorem c7_storage_failures_distinct_from_credential_failures
    (db : List SecureFileRecord) (k p : String) (meta : String → Option String)
    (ok : Bool) (home : String) (file : SecureFileRecord)
    (h1 : getSecureFile db k = some file)
    (h2 : comparePasscode p file.hashedPassCode = Except.ok true) :
    (handleFileDownload db k p meta ok home).outcome ≠ DownloadOutcome.wrongSharedKey ∧
    (handleFileDownload db k p meta ok home).outcome ≠ DownloadOutcome.wrongPasscode ∧
    ((handleFileDownload db k p meta ok home).outcome = DownloadOutcome.downloadFailed ∨
     ∃ d, (handleFileDownload db k p meta ok home).outcome = DownloadOutcome.downloaded d) := by
  rcases handleFileDownload_after_success db k p meta ok home file h1 h2 with h | ⟨fn, _, _, h⟩
  · rw [h]
    exact ⟨by simp, by simp, Or.inl rfl⟩
  · rw [h]
    exact ⟨by simp, by simp, Or.inr ⟨_, rfl⟩⟩

/-- C7 witness: correct credentials with a failing metadata fetch end in
downloadFailed, not in a credential-failure outcome. -/
theorem c7_storage_failures_distinct_from_credential_failures_witness :
    (handleFileDownload [⟨bcryptDigest "xyz123", "K", "fid1"⟩] "K" "xyz123"
        (fun _ => none) true "/home/u").outcome ≠ DownloadOutcome.wrongSharedKey ∧
    (handleFileDownload [⟨bcryptDigest "xyz123", "K", "fid1"⟩] "K" "xyz123"
        (fun _ => none) true "/home/u").outcome ≠ DownloadOutcome.wrongPasscode ∧
    ((handleFileDownload [⟨bcryptDigest "xyz123", "K", "fid1"⟩] "K" "xyz123"
        (fun _ => none) true "/home/u").outcome = DownloadOutcome.downloadFailed ∨
     ∃ d, (handleFileDownload [⟨bcryptDigest "xyz123", "K", "fid1"⟩] "K" "xyz123"
        (fun _ => none) true "/home/u").outcome = DownloadOutcome.downloaded d) :=
  c7_storage_failures_distinct_from_credential_failures
    [⟨bcryptDigest "xyz123", "K", "fid1"⟩] "K" "xyz123" (fun _ => none) true "/home/u"
    ⟨bcryptDigest "xyz123", "K", "fid1"⟩ rfl rfl

/-- When the lookup found a record, the compare call is always the third
observable event of the download run, whatever happens afterwards. -/
lemma handleFileDownload_compare_event
    (db : List SecureFileRecord) (k p : String) (meta : String → Option String)
    (ok : Bool) (home : String) (file : SecureFileRecord)
    (hg : getSecureFile db k = some file) :
    (handleFileDownload db k p meta ok home).events.get? 2 =
      some (CliEvent.callComparePasscode p file.hashedPassCode) := by
  unfold handleFileDownload
  rw [hg]
  simp only [askPassword]
  rcases comparePasscode p file.hashedPassCode with e | b
  · rfl
  · rcases b
    · rfl
    · rcases meta file.fileId with _ | fn
      · rfl
      · by_cases hn : fn = ""
        · simp only [if_pos hn]
          rfl
        · simp only [if_neg hn]
          rcases ok
          · rfl
          · rfl

/-- C8: the shared key is generated and revealed by the spinner before the
remote upload is attempted, in every run: the key-reveal message is always
the second observable event, and any call to uploadFile can only occur at
a strictly later position, so the caller sees the key even when the upload
then fails. -/
theorem c8_key_revealed_before_upload
    (db : List SecureFileRecord) (fp p k : String) (upl : String → Option String) :
    (handleFileUpload db fp p k upl).events.get? 1 =
      some (CliEvent.spinnerStop ("Shared key: " ++ k)) ∧
    ∀ (i : Nat) (fp2 : String),
      (handleFileUpload db fp p k upl).events.get? i =
        some (CliEvent.callUploadFile fp2) → 1 < i := by
  by_cases hp : p = ""
  · subst hp
    rw [handleFileUpload_emptyPasscode]
    refine ⟨rfl, ?_⟩
    intro i fp2 hi
    rcases i with _ | _ | i
    · simp at hi
    · simp at hi
    · omega
  · rcases hu : upl fp with _ | fid
    · rw [handleFileUpload_uploadFail db fp p k upl hp hu]
      refine ⟨rfl, ?_⟩
      intro i fp2 hi
      rcases i with _ | _ | i
      · simp at hi
      · simp at hi
      · omega
    · rcases hdup : (getSecureFile db k).isSome with _ | _
      · rw [handleFileUpload_success db fp p k fid upl hp hu hdup]
        refine ⟨rfl, ?_⟩
        intro i fp2 hi
        rcases i with _ | _ | i
        · simp at hi
        · simp at hi
        · omega
      · rw [handleFileUpload_putFail db fp p k fid upl hp hu hdup]
        refine ⟨rfl, ?_⟩
        intro i fp2 hi
        rcases i with _ | _ | i
        · simp at hi
        · simp at hi
        · omega

/-- C8 witness: in a run whose remote upload fails the key-reveal event is
still at position one, and the upload call observed at position three is
indeed later. -/
theorem c8_key_revealed_before_upload_witness :
    (handleFileUpload [] "/tmp/report.pdf" "xyz123" "K" (fun _ => none)).events.get? 1 =
      some (CliEvent.spinnerStop ("Shared key: " ++ "K")) ∧ 1 < 3 :=
  ⟨(c8_key_revealed_before_upload [] "/tmp/report.pdf" "xyz123" "K" (fun _ => none)).1,
   (c8_key_revealed_before_upload [] "/tmp/report.pdf" "xyz123" "K" (fun _ => none)).2
     3 "/tmp/report.pdf" rfl⟩

/-- C9: when the shared-key lookup returns no record, the download flow
returns with the wrong-shared-key outcome and no comparePasscode call ever
appears among the observable events of the run. -/
theorem c9_no_verification_on_lookup_miss
    (db : List SecureFileRecord) (k p : String) (meta : String → Option String)
    (ok : Bool) (home : String)
    (h : getSecureFile db k = none) :
    (handleFileDownload db k p meta ok home).outcome = DownloadOutcome.wrongSharedKey ∧
    ∀ e hh, CliEvent.callComparePasscode e hh ∉ (handleFileDownload db k p meta ok home).events := by
  rw [handleFileDownload_miss db k p meta ok home h]
  refine ⟨rfl, ?_⟩
  intro e hh
  simp

/-- C9 witness: a download against the empty store never calls
comparePasscode. -/
theorem c9_no_verification_on_lookup_miss_witness :
    (handleFileDownload [] "K" "xyz123" (fun _ => some "report.pdf") true "/home/u").outcome =
      DownloadOutcome.wrongSharedKey ∧
    ∀ e hh, CliEvent.callComparePasscode e hh ∉
      (handleFileDownload [] "K" "xyz123" (fun _ => some "report.pdf") true "/home/u").events :=
  c9_no_verification_on_lookup_miss [] "K" "xyz123" (fun _ => some "report.pdf") true "/home/u" rfl

/-- C10: the two download prompts validate asymmetrically. The shared-key
prompt accepts exactly the nonempty inputs, so a key obtained through it
is never empty; the passcode prompt applies no validation and forwards any
input, so the empty passcode is accepted and handed to verification
whenever a record was found. -/
theorem c10_prompt_validation_asymmetry
    (db : List SecureFileRecord) :
    (∀ v, sharedKeyPromptValidate v = none ↔ v ≠ "") ∧
    (∀ (attempts : List String) (k : String),
       promptText sharedKeyPromptValidate attempts = some k → k ≠ "") ∧
    (∀ s, askPassword s = s) ∧
    (∀ (k : String) (file : SecureFileRecord) (meta : String → Option String)
       (ok : Bool) (home : String),
       getSecureFile db k = some file →
         CliEvent.callComparePasscode "" file.hashedPassCode ∈
           (handleFileDownload db k "" meta ok home).events) := by
  refine ⟨?_, ?_, fun _ => rfl, ?_⟩
  · intro v
    unfold sharedKeyPromptValidate
    by_cases hv : v = ""
    · simp [hv]
    · simp [hv]
  · intro attempts
    induction attempts with
    | nil =>
      intro k hk
      simp [promptText] at hk
    | cons a rest ih =>
      intro k hk
      unfold promptText at hk
      by_cases ha : a = ""
      · simp only [sharedKeyPromptValidate, if_pos ha] at hk
        exact ih k hk
      · simp only [sharedKeyPromptValidate, if_neg ha] at hk
        simp only [Option.some.injEq] at hk
        rw [← hk]
        exact ha
  · intro k file meta ok home hg
    exact List.get?_mem (handleFileDownload_compare_event db k "" meta ok home file hg)

/-- C10 witness: the validator accepts the key K and rejects the empty
string, the prompt loop skips an empty attempt and returns K, and the
empty passcode reaches comparePasscode against the stored digest. -/
theorem c10_prompt_validation_asymmetry_witness :
    (sharedKeyPromptValidate "K" = none ↔ "K" ≠ "") ∧
    ("K" : String) ≠ "" ∧
    askPassword "" = "" ∧
    CliEvent.callComparePasscode "" (bcryptDigest "xyz123") ∈
      (handleFileDownload [⟨bcryptDigest "xyz123", "K", "fid1"⟩] "K" ""
        (fun _ => some "report.pdf") true "/home/u").events :=
  ⟨(c10_prompt_validation_asymmetry []).1 "K",
   (c10_prompt_validation_asymmetry []).2.1 ["", "K"] "K" rfl,
   (c10_prompt_validation_asymmetry []).2.2.1 "",
   (c10_prompt_validation_asymmetry
      [⟨bcryptDigest "xyz123", "K", "fid1"⟩]).2.2.2 "K"
     ⟨bcryptDigest "xyz123", "K", "fid1"⟩ (fun _ => some "report.pdf") true "/home/u" rfl⟩

end FileShareCli
